import Mathlib

/-!
Verification of the tabular reconciliation logic of the PowerBI-Automation
repository.  The definitions below are a shallow embedding of the Python
functions in `compare_excel_snowflake_reports.py`, `complete_data_comparison.py`,
`validate_excel_snowflake.py` and `utils/data_validator.py`:

* cell values are modelled by `Value` (`Value.none` models Python `None`;
  the spreadsheet/warehouse loaders replace `NaN` with `None` before the
  comparison code runs, so a single "absent" constructor suffices);
* Python numbers (`int`/`float`) are modelled by `ℚ` — the reconciliation
  logic only ever subtracts, takes absolute values and compares, all of
  which are exact on the finite decimal values involved;
* Python string primitives (`str.strip`, `str.replace`, `str.upper`,
  `float(...)`, `int(...)`) are re-implemented over `List Char`.
  `float`/`int` parsing is modelled for finite decimal literals
  (optional surrounding whitespace, optional sign, digits with an optional
  decimal point); exotic forms (`inf`, `nan`, exponents, `_` digit
  separators) are not modelled — no theorem below depends on them.
-/

/-- Python whitespace characters recognised by `str.strip()` (ASCII subset). -/
def isSpaceChar (c : Char) : Bool :=
  c == ' ' || c == '\t' || c == '\n' || c == '\r' || c == '\x0b' || c == '\x0c'

/-- `str.strip()` on a character list: drop whitespace from both ends. -/
def stripL (l : List Char) : List Char :=
  ((l.dropWhile isSpaceChar).reverse.dropWhile isSpaceChar).reverse

/-- `str.strip()`. -/
def strip (s : String) : String := ⟨stripL s.data⟩

/-- Python `str.upper()` on a single (ASCII) character. -/
def upperChar (c : Char) : Char :=
  if 'a' ≤ c ∧ c ≤ 'z' then Char.ofNat (c.toNat - 32) else c

/-- Python `str.upper()`. -/
def upperStr (s : String) : String := ⟨s.data.map upperChar⟩

/-- `str.replace(c, "")` for a single character `c`: removes every occurrence. -/
def removeChar (c : Char) (l : List Char) : List Char :=
  l.filter (fun a => !(a == c))

/-- `str.replace(c, repl)` for a single-character pattern `c`. -/
def replaceChar (c : Char) (repl : List Char) (l : List Char) : List Char :=
  l.flatMap (fun a => if a == c then repl else [a])

/-- `str.replace(pat, "")` for a multi-character pattern: scan left to right,
removing non-overlapping occurrences, exactly as Python `str.replace` does.
The `Nat` argument is recursion fuel, always instantiated with the length of
the scanned list. -/
def removePatAux (pat : List Char) : Nat → List Char → List Char
  | _, [] => []
  | 0, l => l
  | fuel + 1, c :: cs =>
    if pat.isPrefixOf (c :: cs) then removePatAux pat fuel ((c :: cs).drop pat.length)
    else c :: removePatAux pat fuel cs

/-- `str.replace(pat, "")` for a multi-character pattern. -/
def removePat (pat : String) (s : String) : String :=
  ⟨removePatAux pat.data s.data.length s.data⟩

/-- Numeric value of one decimal digit character. -/
def digitVal (c : Char) : Nat := c.toNat - '0'.toNat

/-- Numeric value of a list of decimal digit characters. -/
def digitsVal (l : List Char) : Nat := l.foldl (fun a c => a * 10 + digitVal c) 0

/-- Python `float(s)` on a character list, for finite decimal literals:
optional surrounding whitespace, optional sign, then either `digits`,
`digits.digits`, `digits.` or `.digits`.  Anything else fails (`none`),
modelling the `ValueError` that the callers catch. -/
def parseFloatL (l : List Char) : Option ℚ :=
  let l := stripL l
  let (sgn, l) : ℚ × List Char :=
    match l with
    | '+' :: r => (1, r)
    | '-' :: r => (-1, r)
    | _ => (1, l)
  let ip := l.takeWhile Char.isDigit
  let rest := l.drop ip.length
  match rest with
  | [] => if ip.isEmpty then Option.none else Option.some (sgn * digitsVal ip)
  | '.' :: r2 =>
    let fp := r2.takeWhile Char.isDigit
    let rest2 := r2.drop fp.length
    if !rest2.isEmpty then Option.none
    else if ip.isEmpty ∧ fp.isEmpty then Option.none
    else Option.some (sgn * ((digitsVal ip : ℚ) + (digitsVal fp : ℚ) / 10 ^ fp.length))
  | _ => Option.none

/-- Python `float(s)`. -/
def parseFloat (s : String) : Option ℚ := parseFloatL s.data

/-- Python `int(s)` on a character list: optional surrounding whitespace,
optional sign, one or more digits, nothing else. -/
def parseIntL (l : List Char) : Option ℚ :=
  let l := stripL l
  let (sgn, l) : ℚ × List Char :=
    match l with
    | '+' :: r => (1, r)
    | '-' :: r => (-1, r)
    | _ => (1, l)
  let ds := l.takeWhile Char.isDigit
  if ds.isEmpty then Option.none
  else if !(l.drop ds.length).isEmpty then Option.none
  else Option.some (sgn * digitsVal ds)

/-- Python `int(s)`. -/
def parseInt (s : String) : Option ℚ := parseIntL s.data

/-- A raw or normalized cell value.  `Value.none` models Python `None`
(the loaders replace `NaN` by `None`); `Value.num` models Python `int`
and `float` (collapsed — the logic below never distinguishes them except
in `pyStr`, see there); `Value.str` models Python `str`. -/
inductive Value where
  | none : Value
  | num : ℚ → Value
  | str : String → Value
deriving DecidableEq, Repr

/-- Whether a value is numeric (`isinstance(v, (int, float))`). -/
def isNum : Value → Bool
  | Value.num _ => true
  | _ => false

/-- The rational carried by a numeric value (never applied to non-numbers). -/
def numOf : Value → ℚ
  | Value.num q => q
  | _ => 0

/-- A rendering of a number as Python `str` would produce it (integers get a
trailing `.0` as Python floats do).  No theorem below depends on the exact
form of this rendering: wherever it matters it is either evaluated on a
concrete value or supplied as an explicit hypothesis. -/
def ratStr (q : ℚ) : String :=
  if q.den = 1 then toString q.num ++ ".0" else toString q.num ++ "/" ++ toString q.den

/-- Python `str(v)` on a cell value. -/
def pyStr : Value → String
  | Value.none => "None"
  | Value.num q => ratStr q
  | Value.str s => s

/-- Remove `'$'`, `','` and `'%'` from a string —
`value.replace('$', '').replace(',', '').replace('%', '')`. -/
def removeSyms (s : String) : String :=
  ⟨s.data.filter (fun c => !(c == '$' || c == ',' || c == '%'))⟩

/-- `clean_value` from `complete_data_comparison.py` (lines 32–50):
null-equivalents (`None`/`NaN`, the empty string) become `Value.none`;
strings are stripped of whitespace and of `$`, `,`, `%`, then float-parsed,
falling back to the (cleaned) string on parse failure; numbers pass
through (`float(value)` is the identity on our exact numbers). -/
def cleanValue : Value → Value
  | Value.none => Value.none
  | Value.num q => Value.num q
  | Value.str s =>
    if s = "" then Value.none
    else
      let t := removeSyms (strip s)
      match parseFloat t with
      | Option.some q => Value.num q
      | Option.none => Value.str t

/-- The cleaning steps inside `clean_excel_value`
(`compare_excel_snowflake_reports.py` lines 71–81), on a character list:
strip whitespace, then remove `$` and `,` only when one of them occurs
(`if '$' in value or ',' in value`), then remove `%` when it occurs
(`if '%' in value`). -/
def cleanedExcelL (l : List Char) : List Char :=
  let t1 := stripL l
  let t2 := if t1.contains '$' || t1.contains ',' then
      t1.filter (fun c => !(c == '$' || c == ',')) else t1
  if t2.contains '%' then t2.filter (fun c => !(c == '%')) else t2

/-- The cleaned string built inside `clean_excel_value` (lines 71–81). -/
def cleanedExcel (s : String) : String := ⟨cleanedExcelL s.data⟩

/-- The numeric-parse attempt inside `clean_excel_value` (lines 83–90):
`float(value)` when the cleaned string contains a decimal point, else
`int(value)`. -/
def excelParse (s : String) : Option ℚ :=
  if s.data.contains '.' then parseFloat s else parseInt s

/-- `clean_excel_value` from `compare_excel_snowflake_reports.py`
(lines 66–92). -/
def cleanExcelValue : Value → Value
  | Value.none => Value.none
  | Value.num q => Value.num q
  | Value.str s =>
    if s = "" then Value.none
    else
      match excelParse (cleanedExcel s) with
      | Option.some q => Value.num q
      | Option.none => Value.str (cleanedExcel s)

/-- `clean_value` from `validate_excel_snowflake.py` (lines 90–105).
Note: unlike the other two normalizers it has no `value == ''` test and
performs no whitespace strip — it only removes `$`, `,`, `%` and tries
`float(...)`. -/
def vesCleanValue : Value → Value
  | Value.none => Value.none
  | Value.num q => Value.num q
  | Value.str s =>
    match parseFloat (removeSyms s) with
    | Option.some q => Value.num q
    | Option.none => Value.str (removeSyms s)

/-- Default `tolerance` argument of `compare_values`
(`complete_data_comparison.py` line 120): `0.01`. -/
def defaultTolerance : ℚ := 1 / 100

/-- `compare_values` from `complete_data_comparison.py` (lines 120–139).
Returns `true` when the two values are DIFFERENT (the caller records a
mismatch), `false` when they are treated as equal: both absent → equal;
exactly one absent → different; both numeric after cleaning → different
iff `abs(a-b) > tolerance`; otherwise → different iff the stripped string
forms differ. -/
def compareValues (csvVal excelVal : Value) (tolerance : ℚ) : Bool :=
  if csvVal = Value.none ∧ excelVal = Value.none then false
  else if csvVal = Value.none ∨ excelVal = Value.none then true
  else
    let csvClean := cleanValue csvVal
    let excelClean := cleanValue excelVal
    if isNum csvClean ∧ isNum excelClean then
      decide (|numOf csvClean - numOf excelClean| > tolerance)
    else
      decide (strip (pyStr csvClean) ≠ strip (pyStr excelClean))

/-- The "expected Snowflake format" of an Excel column name
(`compare_excel_snowflake_reports.py` line 322):
`excel_col.upper().replace(' ', '_').replace('%', 'PERCENT')`. -/
def sfExpected (excelCol : String) : String :=
  ⟨replaceChar '%' "PERCENT".data (replaceChar ' ' "_".data (upperStr excelCol).data)⟩

/-- The fuzzy normal form of a Snowflake column name (line 331, left side):
`sf_col.replace('_', '').replace('PERCENT', '')`. -/
def fuzzySf (sfCol : String) : String :=
  removePat "PERCENT" ⟨removeChar '_' sfCol.data⟩

/-- The fuzzy normal form of an Excel column name (line 331, right side):
`excel_col.replace(' ', '').replace('%', '').upper()`. -/
def fuzzyExcel (excelCol : String) : String :=
  upperStr ⟨removeChar '%' (removeChar ' ' excelCol.data)⟩

/-- The Snowflake column matched to one Excel column
(`compare_excel_snowflake_reports.py` lines 320–334): exact match on the
expected Snowflake form first, else the first candidate whose fuzzy form
equals the Excel column's fuzzy form, else no match.  The source iterates
over the Excel columns mutating a dict; since no iteration depends on the
dict's current contents, the per-column match is this independent
function. -/
def matchCol (sfCols : List String) (excelCol : String) : Option String :=
  if sfCols.contains (sfExpected excelCol) then Option.some (sfExpected excelCol)
  else sfCols.find? (fun sfCol => fuzzySf sfCol == fuzzyExcel excelCol)

/-- The `column_mapping` dict (lines 315–337) as an association list in
Excel-column order.  (Python dict insertion keeps the first binding per
key; duplicate reference names are a caller error per the spec and would
here produce repeated entries.) -/
def columnMapping (excelCols sfCols : List String) : List (String × String) :=
  excelCols.filterMap (fun ec => (matchCol sfCols ec).map (fun sc => (ec, sc)))

/-- The `missing_in_sf` list (lines 336–337): Excel columns with no match. -/
def missingList (excelCols sfCols : List String) : List String :=
  excelCols.filter (fun ec => (matchCol sfCols ec).isNone)

/-- The `extra_in_sf` list (lines 339–341): Snowflake columns never claimed
by any Excel column. -/
def extraList (excelCols sfCols : List String) : List String :=
  sfCols.filter (fun sc => !((columnMapping excelCols sfCols).map Prod.snd).contains sc)

/-- A loaded dataframe: column names in order, and rows, each row holding
one value per column (positionally aligned with `cols`). -/
structure DF where
  cols : List String
  rows : List (List Value)
deriving DecidableEq, Repr

/-- Value of column `c` in one row (`row[c]` in pandas).  A missing column
or short row yields `Value.none` (pandas would raise; every dataset used in
a theorem below is well-formed, with stripped column names). -/
def rowCell (cols : List String) (row : List Value) (c : String) : Value :=
  match cols.findIdx? (fun x => x == c) with
  | Option.some j => row.getD j Value.none
  | Option.none => Value.none

/-- `df.iloc[idx][c]`. -/
def getCell (df : DF) (idx : Nat) (c : String) : Value :=
  rowCell df.cols (df.rows.getD idx []) c

/-- `df[c].isna().sum()`: number of absent values in column `c`. -/
def countNone (df : DF) (c : String) : Nat :=
  df.rows.countP (fun r => rowCell df.cols r c == Value.none)

/-- `np.isclose` default absolute tolerance `atol = 1e-8`. -/
def npAtol : ℚ := 1 / 100000000

/-- The relative tolerance `rtol = 1e-5` passed at line 406. -/
def npRtol : ℚ := 1 / 100000

/-- `np.isclose(a, b, rtol=1e-5)` on finite numbers:
`abs(a-b) <= atol + rtol*abs(b)` (the `equal_nan=True` flag is irrelevant
here — both-absent pairs are skipped before this call, see
`cellMismatch`). -/
def npIsClose (a b : ℚ) : Bool :=
  decide (|a - b| ≤ npAtol + npRtol * |b|)

/-- Whether one cell pair of the sample audit is recorded as a mismatch
(`compare_excel_snowflake_reports.py` lines 400–422): both absent →
skipped; both numeric → recorded iff not `np.isclose`; otherwise →
recorded iff the Python string forms differ. -/
def cellMismatch (excelVal sfVal : Value) : Bool :=
  if excelVal = Value.none ∧ sfVal = Value.none then false
  else if isNum excelVal ∧ isNum sfVal then !npIsClose (numOf excelVal) (numOf sfVal)
  else decide (pyStr excelVal ≠ pyStr sfVal)

/-- Line 311: `[str(col).strip() for col in excel_df.columns]`. -/
def excelColumnsOf (excel : DF) : List String := excel.cols.map strip

/-- Line 283: `row_match = excel_rows == sf_rows`. -/
def rowMatchB (excel sf : DF) : Bool := excel.rows.length == sf.rows.length

/-- Line 289: `'difference': sf_rows - excel_rows` (signed). -/
def rowDiffI (excel sf : DF) : Int := (sf.rows.length : Int) - (excel.rows.length : Int)

/-- Line 298: `col_match = excel_cols == sf_cols`. -/
def colMatchB (excel sf : DF) : Bool := excel.cols.length == sf.cols.length

/-- Line 304: `'difference': sf_cols - excel_cols` (signed). -/
def colDiffI (excel sf : DF) : Int := (sf.cols.length : Int) - (excel.cols.length : Int)

/-- The column mapping built at lines 314–337. -/
def mappingOf (excel sf : DF) : List (String × String) :=
  columnMapping (excelColumnsOf excel) sf.cols

/-- The `missing_in_sf` list for two dataframes. -/
def missingOf (excel sf : DF) : List String :=
  missingList (excelColumnsOf excel) sf.cols

/-- The `extra_in_sf` list for two dataframes. -/
def extraOf (excel sf : DF) : List String :=
  extraList (excelColumnsOf excel) sf.cols

/-- The `null_comparison` table (lines 358–369): per mapped pair, the Excel
column name with both sides' NULL counts. -/
def nullCompOf (excel sf : DF) : List (String × Nat × Nat) :=
  (mappingOf excel sf).map (fun p => (p.1, countNone excel p.1, countNone sf p.2))

/-- The `null_mismatches` list (line 372): mapped Excel columns whose two
NULL counts differ. -/
def nullMisOf (excel sf : DF) : List String :=
  ((nullCompOf excel sf).filter (fun q => !(q.2.1 == q.2.2))).map Prod.fst

/-- The `dtype_comparison` table (lines 377–387): per mapped Excel column,
the `'compatible'` flag — set to `True` unconditionally ("Simplified
check"); the stored dtype strings are display-only and not modelled. -/
def dtypeCompOf (excel sf : DF) : List (String × Bool) :=
  (mappingOf excel sf).map (fun p => (p.1, true))

/-- Line 393: `sample_size = min(10, excel_rows, sf_rows)`. -/
def sampleSizeOf (excel sf : DF) : Nat :=
  min 10 (min excel.rows.length sf.rows.length)

/-- The `data_mismatches` list (lines 392–422) as (row index, Excel column)
pairs, in the source's iteration order (rows outer, mapped columns inner).
The recorded value/difference payload fields are display-only and not
modelled. -/
def dataMisOf (excel sf : DF) : List (Nat × String) :=
  (List.range (sampleSizeOf excel sf)).flatMap (fun idx =>
    (mappingOf excel sf).filterMap (fun p =>
      if cellMismatch (getCell excel idx p.1) (getCell sf idx p.2) then
        Option.some (idx, p.1)
      else Option.none))

/-- Lines 433–439: `all_passed = row_match and col_match and not
missing_in_sf and not null_mismatches and not data_mismatches`. -/
def overallPassB (excel sf : DF) : Bool :=
  rowMatchB excel sf && colMatchB excel sf && (missingOf excel sf).isEmpty
    && (nullMisOf excel sf).isEmpty && (dataMisOf excel sf).isEmpty

/-- Lines 444–451: `'passed': sum([row_match, col_match, not missing_in_sf,
not null_mismatches, not data_mismatches, True])` — the final `True` is the
data-type check, counted as passed unconditionally. -/
def passedCountN (excel sf : DF) : Nat :=
  (rowMatchB excel sf).toNat + (colMatchB excel sf).toNat
    + (missingOf excel sf).isEmpty.toNat + (nullMisOf excel sf).isEmpty.toNat
    + (dataMisOf excel sf).isEmpty.toNat + 1

/-- Line 452: `'warnings': len(null_mismatches) + len(extra_in_sf)`. -/
def warningsCountN (excel sf : DF) : Nat :=
  (nullMisOf excel sf).length + (extraOf excel sf).length

/-- Line 453: `'failures': len(missing_in_sf) + len(data_mismatches) +
(0 if row_match else 1) + (0 if col_match else 1)`. -/
def failuresCountN (excel sf : DF) : Nat :=
  (missingOf excel sf).length + (dataMisOf excel sf).length
    + (if rowMatchB excel sf then 0 else 1) + (if colMatchB excel sf then 0 else 1)

/-- The output record of `compare_dataframes`
(`compare_excel_snowflake_reports.py` lines 270–456); one field per piece
of the returned `comparison` dict that carries comparison content. -/
structure CompareResult where
  rowMatch : Bool
  rowDiff : Int
  colMatch : Bool
  colDiff : Int
  mapping : List (String × String)
  missingInSnowflake : List String
  extraInSnowflake : List String
  nullComparison : List (String × Nat × Nat)
  nullMismatches : List String
  dtypeComparison : List (String × Bool)
  dataMismatches : List (Nat × String)
  overallPass : Bool
  passedCount : Nat
  warningsCount : Nat
  failuresCount : Nat
deriving DecidableEq, Repr

/-- `compare_dataframes(excel_df, snowflake_df, ...)` — the comparison
content of the returned record (`overallPass` is `true` exactly when the
source sets `'overall_status'` to `'PASSED'`). -/
def compareDataframes (excel sf : DF) : CompareResult :=
  { rowMatch := rowMatchB excel sf
    rowDiff := rowDiffI excel sf
    colMatch := colMatchB excel sf
    colDiff := colDiffI excel sf
    mapping := mappingOf excel sf
    missingInSnowflake := missingOf excel sf
    extraInSnowflake := extraOf excel sf
    nullComparison := nullCompOf excel sf
    nullMismatches := nullMisOf excel sf
    dtypeComparison := dtypeCompOf excel sf
    dataMismatches := dataMisOf excel sf
    overallPass := overallPassB excel sf
    passedCount := passedCountN excel sf
    warningsCount := warningsCountN excel sf
    failuresCount := failuresCountN excel sf }

/-- The record built by `DataValidator.validate_row_count`
(`utils/data_validator.py` lines 22–53). -/
structure RowCountResult where
  powerbiCount : Nat
  snowflakeCount : Nat
  countsMatch : Bool
  difference : Int
deriving DecidableEq, Repr

/-- `DataValidator.validate_row_count`: note the reported `'difference'`
is `abs(powerbi_rows - snowflake_rows)` — an absolute value. -/
def validateRowCount (powerbiRows snowflakeRows : Nat) : RowCountResult :=
  { powerbiCount := powerbiRows
    snowflakeCount := snowflakeRows
    countsMatch := powerbiRows == snowflakeRows
    difference := |(powerbiRows : Int) - (snowflakeRows : Int)| }

/-! ### Helper lemmas -/

/-- `List.contains` is `false` for an element that is not in the list. -/
theorem contains_eq_false_of_not_mem {l : List Char} {c : Char} (h : c ∉ l) :
    l.contains c = false := by
  cases hc : l.contains c with
  | false => rfl
  | true => exact absurd (List.mem_of_elem_eq_true hc) h

/-- An element on which the predicate is `false` is not in the filtered list. -/
theorem not_mem_filter_of_false {l : List Char} {p : Char → Bool} {c : Char}
    (h : p c = false) : c ∉ l.filter p :=
  fun hm => absurd (List.of_mem_filter hm) (by simp [h])

/-- Filtering twice by the same predicate equals filtering once. -/
theorem filter_idem (p : Char → Bool) (l : List Char) :
    (l.filter p).filter p = l.filter p := by
  induction l with
  | nil => rfl
  | cons c cs ih => by_cases h : p c <;> simp [List.filter_cons, h, ih]

/-- On two plain numbers, `compare_values` is exactly the
`abs(a-b) > tolerance` test. -/
theorem compareValues_num_eval (a b t : ℚ) :
    compareValues (Value.num a) (Value.num b) t = decide (|a - b| > t) := by
  simp [compareValues, cleanValue, isNum, numOf]

/-- An element of a list makes `List.contains` `true`. -/
theorem mem_contains_true {l : List Char} {c : Char} (h : c ∈ l) : l.contains c = true :=
  List.elem_eq_true_of_mem h

/-- The result of `cleanedExcelL` contains none of `$`, `,`, `%`. -/
theorem cleanedExcelL_noSyms (l : List Char) :
    (cleanedExcelL l).contains '$' = false ∧ (cleanedExcelL l).contains ',' = false
      ∧ (cleanedExcelL l).contains '%' = false := by
  simp only [cleanedExcelL]
  split_ifs with h1 h2 h2
  · refine ⟨contains_eq_false_of_not_mem ?_, contains_eq_false_of_not_mem ?_,
      contains_eq_false_of_not_mem (not_mem_filter_of_false (by simp))⟩
    · exact fun hm => not_mem_filter_of_false (by simp) (List.mem_of_mem_filter hm)
    · exact fun hm => not_mem_filter_of_false (by simp) (List.mem_of_mem_filter hm)
  · simp only [Bool.not_eq_true] at h2
    exact ⟨contains_eq_false_of_not_mem (not_mem_filter_of_false (by simp)),
      contains_eq_false_of_not_mem (not_mem_filter_of_false (by simp)), h2⟩
  · simp only [Bool.or_eq_true, not_or, Bool.not_eq_true] at h1
    refine ⟨contains_eq_false_of_not_mem ?_, contains_eq_false_of_not_mem ?_,
      contains_eq_false_of_not_mem (not_mem_filter_of_false (by simp))⟩
    · exact fun hm => by
        have h := mem_contains_true (List.mem_of_mem_filter hm)
        rw [h1.1] at h
        exact Bool.false_ne_true h
    · exact fun hm => by
        have h := mem_contains_true (List.mem_of_mem_filter hm)
        rw [h1.2] at h
        exact Bool.false_ne_true h
  · simp only [Bool.or_eq_true, not_or, Bool.not_eq_true] at h1
    simp only [Bool.not_eq_true] at h2
    exact ⟨h1.1, h1.2, h2⟩

/-- `cleanedExcelL` is the identity on an already-clean list: one that strip
does not change and that holds none of `$`, `,`, `%`. -/
theorem cleanedExcelL_fixed {t : List Char} (hstrip : stripL t = t)
    (h1 : t.contains '$' = false) (h2 : t.contains ',' = false)
    (h3 : t.contains '%' = false) : cleanedExcelL t = t := by
  have m1 : '$' ∉ t := fun hm => by rw [mem_contains_true hm] at h1; exact Bool.noConfusion h1
  have m2 : ',' ∉ t := fun hm => by rw [mem_contains_true hm] at h2; exact Bool.noConfusion h2
  have m3 : '%' ∉ t := fun hm => by rw [mem_contains_true hm] at h3; exact Bool.noConfusion h3
  simp [cleanedExcelL, hstrip, m1, m2, m3]

/-- The mapped Excel columns, in order, form a sublist of the Excel columns. -/
theorem columnMapping_fst_sublist (sfCols : List String) :
    ∀ excelCols : List String,
      ((columnMapping excelCols sfCols).map Prod.fst).Sublist excelCols := by
  intro excelCols
  induction excelCols with
  | nil => simp [columnMapping]
  | cons ec rest ih =>
    have ih' : ((rest.filterMap
        (fun e => (matchCol sfCols e).map (fun sc => (e, sc)))).map Prod.fst).Sublist rest := by
      simpa [columnMapping] using ih
    simp only [columnMapping, List.filterMap_cons]
    cases h : matchCol sfCols ec with
    | none =>
      simp only [h, Option.map_none']
      exact List.Sublist.cons ec ih'
    | some sc =>
      simp only [h, Option.map_some', List.map_cons]
      exact List.Sublist.cons₂ ec ih'

/-- A matched Snowflake column is one of the Snowflake columns. -/
theorem matchCol_mem {sfCols : List String} {ec sc : String}
    (h : matchCol sfCols ec = Option.some sc) : sc ∈ sfCols := by
  unfold matchCol at h
  split at h
  · rename_i hc
    injection h with h
    subst h
    exact List.mem_of_elem_eq_true hc
  · exact List.mem_of_find?_eq_some h

/-- On two plain numbers, the audit's recording predicate is exactly the
negation of `np.isclose`. -/
theorem cellMismatch_num (a b : ℚ) :
    cellMismatch (Value.num a) (Value.num b) = !npIsClose a b := by
  simp [cellMismatch, isNum, numOf]

/-! ### Claim theorems -/

/-- C2: for reference columns `["Claim Form Type", "PMPM YoY%"]` and
candidate columns `["CLAIM_FORM_TYPE", "PMPM_YOY_PERCENT"]`, the schema
mapper produces the complete one-to-one mapping of both reference columns,
with empty missing-in-candidate and extra-in-candidate lists; the exact
rule does not match the second column (its expected form is
`PMPM_YOYPERCENT`), so the mapping is recovered by the fuzzy fallback. -/
theorem schema_mapping_fuzzy_example :
    columnMapping ["Claim Form Type", "PMPM YoY%"] ["CLAIM_FORM_TYPE", "PMPM_YOY_PERCENT"]
        = [("Claim Form Type", "CLAIM_FORM_TYPE"), ("PMPM YoY%", "PMPM_YOY_PERCENT")]
      ∧ missingList ["Claim Form Type", "PMPM YoY%"] ["CLAIM_FORM_TYPE", "PMPM_YOY_PERCENT"] = []
      ∧ extraList ["Claim Form Type", "PMPM YoY%"] ["CLAIM_FORM_TYPE", "PMPM_YOY_PERCENT"] = []
      ∧ (["CLAIM_FORM_TYPE", "PMPM_YOY_PERCENT"] : List String).contains
          (sfExpected ("PMPM YoY%")) = false := by
  decide

/-- C5 counterexample: at the `compare_dataframes` audit cited by the
claim (lines 404–413), a pair differing by exactly the default tolerance
`0.01` — the values `0.01` and `0` — is recorded as a mismatch: that
comparator is `np.isclose(a, b, rtol=1e-5)`, i.e.
`abs(a-b) ≤ 1e-8 + 1e-5*abs(b)`, not the absolute-tolerance rule, so
the claimed boundary behaviour fails at that cited source. -/
theorem tolerance_boundary_counterexample :
    |(1 / 100 : ℚ) - 0| ≤ defaultTolerance
      ∧ npIsClose (1 / 100) 0 = false
      ∧ cellMismatch (Value.num (1 / 100)) (Value.num 0) = true := by
  have h : npIsClose (1 / 100) 0 = false := by
    simp only [npIsClose, npAtol, npRtol, decide_eq_false_iff_not, not_le]
    rw [sub_zero, abs_of_nonneg (by norm_num : (0 : ℚ) ≤ 1 / 100)]
    norm_num
  refine ⟨?_, h, ?_⟩
  · rw [sub_zero, abs_of_nonneg (by norm_num : (0 : ℚ) ≤ 1 / 100)]
    norm_num [defaultTolerance]
  · rw [cellMismatch_num, h]
    rfl

/-- C5 (amended): `compare_values` with tolerance `t` reports equality
(returns `false`, i.e. "not different") exactly when `abs(a-b) ≤ t`; the
default tolerance is `0.01`; a pair differing by exactly `t ≥ 0` is
equal, and a pair differing by `t + 1e-9` is a mismatch.  The numeric
check in `compare_dataframes`' cell audit does NOT follow this rule: it
takes no tolerance parameter and records a mismatch unless
`abs(a-b) ≤ 1e-8 + 1e-5*abs(b)` (`np.isclose` with `rtol=1e-5`). -/
theorem tolerance_boundary_rule :
    (∀ a b t : ℚ, compareValues (Value.num a) (Value.num b) t = false ↔ |a - b| ≤ t)
      ∧ defaultTolerance = 1 / 100
      ∧ (∀ a t : ℚ, 0 ≤ t → compareValues (Value.num (a + t)) (Value.num a) t = false)
      ∧ (∀ a t : ℚ, 0 ≤ t →
          compareValues (Value.num (a + t + 1 / 1000000000)) (Value.num a) t = true)
      ∧ (∀ a b : ℚ, cellMismatch (Value.num a) (Value.num b)
          = !decide (|a - b| ≤ npAtol + npRtol * |b|)) := by
  have base : ∀ a b t : ℚ,
      compareValues (Value.num a) (Value.num b) t = decide (|a - b| > t) :=
    compareValues_num_eval
  refine ⟨fun a b t => ?_, rfl, fun a t ht => ?_, fun a t ht => ?_,
    fun a b => cellMismatch_num a b⟩
  · rw [base]
    simp [not_lt]
  · rw [base]
    have h1 : a + t - a = t := by ring
    rw [h1, abs_of_nonneg ht]
    simp
  · rw [base]
    have h1 : a + t + 1 / 1000000000 - a = t + 1 / 1000000000 := by ring
    rw [h1, abs_of_nonneg (by positivity)]
    simp only [decide_eq_true_eq, gt_iff_lt]
    linarith

/-- C5 witness: at `a = 5`, `t = 1/100` both boundary conjuncts apply. -/
theorem tolerance_boundary_rule_witness :
    compareValues (Value.num (5 + 1 / 100)) (Value.num 5) (1 / 100) = false
      ∧ compareValues (Value.num (5 + 1 / 100 + 1 / 1000000000)) (Value.num 5) (1 / 100)
          = true :=
  ⟨tolerance_boundary_rule.2.2.1 5 (1 / 100) (by norm_num),
    tolerance_boundary_rule.2.2.2.1 5 (1 / 100) (by norm_num)⟩

/-- C6 counterexample: the `np.isclose`-based numeric check of
`compare_dataframes`' audit (lines 404–413, cited by the claim) is
asymmetric: `999.99` vs `1000` is close (threshold
`1e-8 + 1e-5*1000 = 0.01000001 ≥ 0.01`) but `1000` vs `999.99` is not
(threshold `1e-8 + 1e-5*999.99 < 0.01`), so the audit records a mismatch
for that pair in one argument order only. -/
theorem tolerance_symmetry_counterexample :
    npIsClose (99999 / 100) 1000 = true ∧ npIsClose 1000 (99999 / 100) = false
      ∧ cellMismatch (Value.num (99999 / 100)) (Value.num 1000) = false
      ∧ cellMismatch (Value.num 1000) (Value.num (99999 / 100)) = true := by
  have h1 : npIsClose (99999 / 100) 1000 = true := by
    have hd : (99999 / 100 : ℚ) - 1000 = -(1 / 100) := by norm_num
    simp only [npIsClose, decide_eq_true_eq, npAtol, npRtol, hd, abs_neg]
    rw [abs_of_nonneg (by norm_num : (0 : ℚ) ≤ 1 / 100),
      abs_of_nonneg (by norm_num : (0 : ℚ) ≤ (1000 : ℚ))]
    norm_num
  have h2 : npIsClose 1000 (99999 / 100) = false := by
    have hd : (1000 : ℚ) - 99999 / 100 = 1 / 100 := by norm_num
    simp only [npIsClose, decide_eq_false_iff_not, not_le, npAtol, npRtol, hd]
    rw [abs_of_nonneg (by norm_num : (0 : ℚ) ≤ 1 / 100),
      abs_of_nonneg (by norm_num : (0 : ℚ) ≤ (99999 / 100 : ℚ))]
    norm_num
  refine ⟨h1, h2, ?_, ?_⟩
  · rw [cellMismatch_num, h1]
    rfl
  · rw [cellMismatch_num, h2]
    rfl

/-- C6 (amended): the tolerance comparator `compare_values` is symmetric
— its verdict for `(a, b)` equals its verdict for `(b, a)` for every
numeric pair and every tolerance.  The `np.isclose` check in
`compare_dataframes`' audit is not symmetric in general, because its
threshold `atol + rtol*abs(b)` depends only on the magnitude of its
second argument; it is symmetric whenever the two magnitudes agree. -/
theorem tolerance_symmetry :
    (∀ a b t : ℚ, compareValues (Value.num a) (Value.num b) t
        = compareValues (Value.num b) (Value.num a) t)
      ∧ (∀ a b : ℚ, npIsClose a b = decide (|a - b| ≤ npAtol + npRtol * |b|))
      ∧ (∀ a b : ℚ, |a| = |b| → npIsClose a b = npIsClose b a) := by
  refine ⟨fun a b t => ?_, fun a b => rfl, fun a b h => ?_⟩
  · rw [compareValues_num_eval, compareValues_num_eval, abs_sub_comm]
  · simp only [npIsClose, h, abs_sub_comm]

/-- C6 witness: at `a = -2`, `b = 2` the magnitudes agree, so the
`np.isclose` check is symmetric there. -/
theorem tolerance_symmetry_witness :
    |(-2 : ℚ)| = |(2 : ℚ)| ∧ npIsClose (-2) 2 = npIsClose 2 (-2) :=
  ⟨abs_neg 2, tolerance_symmetry.2.2 (-2) 2 (abs_neg 2)⟩

/-- C7 counterexample: with 10 reference (PowerBI) rows and 9 candidate
(Snowflake) rows, `DataValidator.validate_row_count` reports `difference
= 1` — the absolute difference — while candidate minus reference is `-1`,
so the claim that the reported delta always equals the signed
`candidate - reference` is false. -/
theorem row_count_delta_counterexample :
    (validateRowCount 10 9).difference = 1 ∧ ((9 : Int) - (10 : Int) = -1)
      ∧ (validateRowCount 10 9).difference ≠ (9 : Int) - (10 : Int) := by
  refine ⟨rfl, rfl, ?_⟩
  decide

/-- C7 (amended): `compare_dataframes` reports the signed delta
`snowflake_rows - excel_rows` (positive when the candidate has more rows,
negative when fewer), while `DataValidator.validate_row_count` reports the
absolute difference, which is never negative. -/
theorem row_count_delta_signed :
    (∀ excel sf : DF, (compareDataframes excel sf).rowDiff
        = (sf.rows.length : Int) - (excel.rows.length : Int))
      ∧ (∀ excel sf : DF, excel.rows.length < sf.rows.length →
          0 < (compareDataframes excel sf).rowDiff)
      ∧ (∀ excel sf : DF, sf.rows.length < excel.rows.length →
          (compareDataframes excel sf).rowDiff < 0)
      ∧ (∀ p s : Nat, (validateRowCount p s).difference = |(p : Int) - (s : Int)|
          ∧ 0 ≤ (validateRowCount p s).difference) := by
  refine ⟨fun excel sf => rfl, fun excel sf h => ?_, fun excel sf h => ?_,
    fun p s => ⟨rfl, abs_nonneg _⟩⟩
  · show (0 : Int) < (sf.rows.length : Int) - (excel.rows.length : Int)
    omega
  · show (sf.rows.length : Int) - (excel.rows.length : Int) < 0
    omega

/-- C7 witness: a dataframe pair with 1 reference row and 2 candidate
rows has a positive reported delta. -/
theorem row_count_delta_signed_witness :
    (compareDataframes (DF.mk ["A"] [[Value.str ("x")]])
        (DF.mk ["A"] [[Value.str ("x")], [Value.str ("y")]])).rowDiff
      = (2 : Int) - (1 : Int)
      ∧ 0 < (compareDataframes (DF.mk ["A"] [[Value.str ("x")]])
          (DF.mk ["A"] [[Value.str ("x")], [Value.str ("y")]])).rowDiff :=
  ⟨row_count_delta_signed.1 _ _,
    row_count_delta_signed.2.1 _ _ (by decide)⟩

/-- C10: the data-type step marks every mapped column pair as compatible
(`'compatible': True` unconditionally), and the summary's `passed` tally
counts the data-type check as passed unconditionally (the trailing
`+ 1`), whatever the two dataframes are. -/
theorem dtype_check_always_passes :
    (∀ excel sf : DF, ∀ p ∈ (compareDataframes excel sf).dtypeComparison, p.2 = true)
      ∧ (∀ excel sf : DF, (compareDataframes excel sf).passedCount
          = (rowMatchB excel sf).toNat + (colMatchB excel sf).toNat
            + (missingOf excel sf).isEmpty.toNat + (nullMisOf excel sf).isEmpty.toNat
            + (dataMisOf excel sf).isEmpty.toNat + 1) := by
  constructor
  · intro excel sf p hp
    have h : (compareDataframes excel sf).dtypeComparison
        = (mappingOf excel sf).map (fun q => (q.1, true)) := rfl
    rw [h] at hp
    obtain ⟨q, _, rfl⟩ := List.mem_map.mp hp
    rfl
  · intro excel sf
    rfl

/-- C10 witness: a concrete mapped pair carries `compatible = true`. -/
theorem dtype_check_always_passes_witness :
    ("A", true) ∈ (compareDataframes (DF.mk ["A"] [[Value.str ("x")]])
        (DF.mk ["A"] [[Value.str ("x")]])).dtypeComparison
      ∧ (("A", true) : String × Bool).2 = true :=
  ⟨by decide, dtype_check_always_passes.1 (DF.mk ["A"] [[Value.str ("x")]])
      (DF.mk ["A"] [[Value.str ("x")]]) ("A", true) (by decide)⟩

/-- C1 counterexample: Excel columns `["A"]` vs Snowflake columns `["B"]`,
one identical row each.  Row counts match, column counts match, there are
no NULL-count mismatches and no cell mismatches (the mapping is empty),
yet the overall verdict is FAILED because `"A"` is missing in Snowflake —
so the claim that the verdict is PASSED under exactly those four
conditions is false. -/
theorem overall_verdict_counterexample :
    rowMatchB (DF.mk ["A"] [[Value.str ("x")]]) (DF.mk ["B"] [[Value.str ("x")]]) = true
      ∧ colMatchB (DF.mk ["A"] [[Value.str ("x")]]) (DF.mk ["B"] [[Value.str ("x")]]) = true
      ∧ nullMisOf (DF.mk ["A"] [[Value.str ("x")]]) (DF.mk ["B"] [[Value.str ("x")]]) = []
      ∧ dataMisOf (DF.mk ["A"] [[Value.str ("x")]]) (DF.mk ["B"] [[Value.str ("x")]]) = []
      ∧ (compareDataframes (DF.mk ["A"] [[Value.str ("x")]])
          (DF.mk ["B"] [[Value.str ("x")]])).overallPass = false := by
  decide

/-- C1 (amended): the overall verdict is PASSED exactly when row counts
match, column counts match, every mapped-column NULL delta is zero, the
cell-mismatch list is empty, AND the missing-in-candidate list is empty;
extra (candidate-only) columns still never affect the verdict. -/
theorem overall_pass_iff (excel sf : DF) :
    (compareDataframes excel sf).overallPass = true ↔
      ((compareDataframes excel sf).rowMatch = true
        ∧ (compareDataframes excel sf).colMatch = true
        ∧ (compareDataframes excel sf).nullMismatches = []
        ∧ (compareDataframes excel sf).dataMismatches = []
        ∧ (compareDataframes excel sf).missingInSnowflake = []) := by
  show overallPassB excel sf = true ↔
    (rowMatchB excel sf = true ∧ colMatchB excel sf = true ∧ nullMisOf excel sf = []
      ∧ dataMisOf excel sf = [] ∧ missingOf excel sf = [])
  simp only [overallPassB, Bool.and_eq_true, List.isEmpty_iff]
  tauto

/-- C4 counterexample: in the `compare_dataframes` cell audit, a pair with
the reference cell absent and the candidate cell holding text `"None"`
(exactly one side absent) is NOT recorded as a mismatch: the code falls
into the string branch and `str(None) == "None"`. -/
theorem absent_cell_recording_counterexample :
    getCell (DF.mk ["A"] [[Value.none]]) 0 ("A") = Value.none
      ∧ getCell (DF.mk ["A"] [[Value.str ("None")]]) 0 ("A") ≠ Value.none
      ∧ (compareDataframes (DF.mk ["A"] [[Value.none]])
          (DF.mk ["A"] [[Value.str ("None")]])).dataMismatches = [] := by
  decide

/-- C4 (amended): a both-absent cell pair is treated as equal and never
recorded, in both `compare_values` and the `compare_dataframes` audit; a
pair with exactly one value absent is always treated as unequal by
`compare_values`, and in the `compare_dataframes` audit it is recorded
whenever the present value's Python string form differs from `"None"`
(the string form of the absent side). -/
theorem absent_cell_equality_rule :
    (∀ t : ℚ, compareValues Value.none Value.none t = false)
      ∧ (∀ v : Value, ∀ t : ℚ, v ≠ Value.none →
          compareValues Value.none v t = true ∧ compareValues v Value.none t = true)
      ∧ cellMismatch Value.none Value.none = false
      ∧ (∀ v : Value, v ≠ Value.none → pyStr v ≠ "None" →
          cellMismatch Value.none v = true ∧ cellMismatch v Value.none = true) := by
  refine ⟨fun t => rfl, fun v t hv => ⟨?_, ?_⟩, rfl, fun v hv hs => ⟨?_, ?_⟩⟩
  · simp [compareValues, hv]
  · simp [compareValues, hv]
  · cases v with
    | none => exact absurd rfl hv
    | num q =>
      simp [cellMismatch, isNum, pyStr]
      exact fun h => hs h.symm
    | str s =>
      simp [cellMismatch, isNum, pyStr]
      exact fun h => hs h.symm
  · cases v with
    | none => exact absurd rfl hv
    | num q =>
      simp [cellMismatch, isNum, pyStr]
      exact fun h => hs h
    | str s =>
      simp [cellMismatch, isNum, pyStr]
      exact fun h => hs h

/-- C4 witness: at `v = Value.str "x"`, `t = 1`, a one-sided-absent pair is
different in `compare_values` and recorded by the audit predicate. -/
theorem absent_cell_equality_rule_witness :
    compareValues Value.none (Value.str ("x")) 1 = true
      ∧ compareValues (Value.str ("x")) Value.none 1 = true
      ∧ cellMismatch Value.none (Value.str ("x")) = true
      ∧ cellMismatch (Value.str ("x")) Value.none = true :=
  ⟨(absent_cell_equality_rule.2.1 (Value.str ("x")) 1 (by decide)).1,
    (absent_cell_equality_rule.2.1 (Value.str ("x")) 1 (by decide)).2,
    (absent_cell_equality_rule.2.2.2 (Value.str ("x")) (by decide) (by decide)).1,
    (absent_cell_equality_rule.2.2.2 (Value.str ("x")) (by decide) (by decide)).2⟩

/-- C9 counterexample: the reference columns `["A B", "A_B"]` (duplicate
free) against candidate `["A_B"]` both map — via the exact rule — to the
same candidate column `"A_B"`, so the mapping is not injective. -/
theorem mapping_injectivity_counterexample :
    (["A B", "A_B"] : List String).Nodup ∧ (["A_B"] : List String).Nodup
      ∧ columnMapping ["A B", "A_B"] ["A_B"] = [("A B", "A_B"), ("A_B", "A_B")]
      ∧ ("A B" : String) ≠ "A_B" := by
  decide

/-- C9 (amended): for duplicate-free reference columns the mapping is a
partial function — each reference column occurs at most once as a key,
keys come from the reference columns and values from the candidate
columns — but it need not be injective. -/
theorem mapping_partial_function (excelCols sfCols : List String)
    (h : excelCols.Nodup) :
    ((columnMapping excelCols sfCols).map Prod.fst).Nodup
      ∧ ∀ p ∈ columnMapping excelCols sfCols, p.1 ∈ excelCols ∧ p.2 ∈ sfCols := by
  constructor
  · exact List.Nodup.sublist (columnMapping_fst_sublist sfCols excelCols) h
  · intro p hp
    obtain ⟨ec, hec, hm⟩ := List.mem_filterMap.mp hp
    cases hmc : matchCol sfCols ec with
    | none => rw [hmc] at hm; simp at hm
    | some sc =>
      rw [hmc] at hm
      simp only [Option.map_some', Option.some.injEq] at hm
      subst hm
      exact ⟨hec, matchCol_mem hmc⟩

/-- C9 witness: a concrete duplicate-free pair of column lists. -/
theorem mapping_partial_function_witness :
    (["Claim Form Type", "PMPM YoY%"] : List String).Nodup
      ∧ ((columnMapping ["Claim Form Type", "PMPM YoY%"]
          ["CLAIM_FORM_TYPE", "PMPM_YOY_PERCENT"]).map Prod.fst).Nodup :=
  ⟨by decide, (mapping_partial_function ["Claim Form Type", "PMPM YoY%"]
      ["CLAIM_FORM_TYPE", "PMPM_YOY_PERCENT"] (by decide)).1⟩

/-- C8 counterexample: `clean_value` of `validate_excel_snowflake.py` maps
the empty string to `Text ""`, not to `Absent` — it has no `value == ''`
test, so the claim that every null-equivalent input yields Absent fails. -/
theorem normalizer_empty_string_counterexample :
    vesCleanValue (Value.str ("")) = Value.str ("")
      ∧ Value.str ("") ≠ Value.none := by
  decide

/-- C8 (amended): all normalizers are total functions of the input value
(the Python sources catch every parse error).  `clean_excel_value` maps
null-equivalents (`None`/`NaN`, the empty string) to Absent and, when
numeric parsing of the cleaned string fails, yields Text of the
whitespace- and symbol-stripped string.  `validate_excel_snowflake`'s
`clean_value` maps `None`/`NaN` to Absent but maps the empty string to
`Text ""`, and strips only the symbols `$`, `,`, `%`, not whitespace. -/
theorem normalizer_totality_rules :
    cleanExcelValue Value.none = Value.none
      ∧ cleanExcelValue (Value.str ("")) = Value.none
      ∧ (∀ s : String, s ≠ "" → excelParse (cleanedExcel s) = Option.none →
          cleanExcelValue (Value.str s) = Value.str (cleanedExcel s))
      ∧ vesCleanValue Value.none = Value.none
      ∧ vesCleanValue (Value.str ("")) = Value.str ("")
      ∧ (∀ s : String, parseFloat (removeSyms s) = Option.none →
          vesCleanValue (Value.str s) = Value.str (removeSyms s)) := by
  refine ⟨rfl, by decide, fun s hs hp => ?_, rfl, by decide, fun s hp => ?_⟩
  · simp only [cleanExcelValue, if_neg hs, hp]
  · simp only [vesCleanValue, hp]

/-- C8 witness: the unparseable string `"abc"` degrades to Text under both
normalizers. -/
theorem normalizer_totality_rules_witness :
    cleanExcelValue (Value.str ("abc")) = Value.str (cleanedExcel ("abc"))
      ∧ vesCleanValue (Value.str ("abc")) = Value.str (removeSyms ("abc")) :=
  ⟨normalizer_totality_rules.2.2.1 ("abc") (by decide) (by decide),
    normalizer_totality_rules.2.2.2.2.2 ("abc") (by decide)⟩

/-- C3 counterexample: normalization is not idempotent.  For the raw string
`"$ a"`, one application strips whitespace first and only then removes
`$`, exposing a new leading space: the result is `Text " a"`; a second
application strips that space and yields `Text "a"`. -/
theorem normalize_idempotence_counterexample :
    cleanValue (cleanValue (Value.str ("$ a"))) ≠ cleanValue (Value.str ("$ a")) := by
  decide

/-- C3 (amended): normalization is idempotent on every input whose
normalized form is Absent or a Number, and on every input whose normalized
form is a Text with nonempty content unchanged by whitespace stripping —
i.e. on everything except inputs where symbol removal exposes new
leading/trailing whitespace or empties the string (as in the
counterexample).  This holds for both `clean_value` and
`clean_excel_value`. -/
theorem normalize_idempotent_on_stable_results :
    (∀ x : Value, (∀ s, cleanValue x = Value.str s → strip s = s ∧ s ≠ "") →
        cleanValue (cleanValue x) = cleanValue x)
      ∧ (∀ x : Value, (∀ s, cleanExcelValue x = Value.str s → strip s = s ∧ s ≠ "") →
        cleanExcelValue (cleanExcelValue x) = cleanExcelValue x) := by
  constructor
  · intro x h
    cases x with
    | none => rfl
    | num q => rfl
    | str s =>
      by_cases hs : s = ""
      · subst hs; rfl
      · simp only [cleanValue, if_neg hs]
        cases hp : parseFloat (removeSyms (strip s)) with
        | some q => rfl
        | none =>
          simp only [hp]
          obtain ⟨hstrip, hne⟩ :=
            h (removeSyms (strip s)) (by simp only [cleanValue, if_neg hs, hp])
          simp only [cleanValue, if_neg hne]
          rw [hstrip]
          have hidem : removeSyms (removeSyms (strip s)) = removeSyms (strip s) :=
            congrArg String.mk (filter_idem _ _)
          rw [hidem, hp]
  · intro x h
    cases x with
    | none => rfl
    | num q => rfl
    | str s =>
      by_cases hs : s = ""
      · subst hs; rfl
      · simp only [cleanExcelValue, if_neg hs]
        cases hp : excelParse (cleanedExcel s) with
        | some q => rfl
        | none =>
          simp only [hp]
          obtain ⟨hstrip, hne⟩ :=
            h (cleanedExcel s) (by simp only [cleanExcelValue, if_neg hs, hp])
          simp only [cleanExcelValue, if_neg hne]
          have hns := cleanedExcelL_noSyms s.data
          have hstripL : stripL (cleanedExcelL s.data) = cleanedExcelL s.data :=
            congrArg String.data hstrip
          have hfix : cleanedExcel (cleanedExcel s) = cleanedExcel s :=
            congrArg String.mk (cleanedExcelL_fixed hstripL hns.1 hns.2.1 hns.2.2)
          rw [hfix, hp]

/-- C3 witness: the already-clean text `"abc"` is a stable normalization
result, so both normalizers are idempotent on it. -/
theorem normalize_idempotent_on_stable_results_witness :
    cleanValue (cleanValue (Value.str ("abc"))) = cleanValue (Value.str ("abc"))
      ∧ cleanExcelValue (cleanExcelValue (Value.str ("abc")))
          = cleanExcelValue (Value.str ("abc")) :=
  ⟨normalize_idempotent_on_stable_results.1 (Value.str ("abc")) (fun s hs => by
      rw [show cleanValue (Value.str ("abc")) = Value.str ("abc") from by decide] at hs
      injection hs with h
      subst h
      exact ⟨by decide, by decide⟩),
    normalize_idempotent_on_stable_results.2 (Value.str ("abc")) (fun s hs => by
      rw [show cleanExcelValue (Value.str ("abc")) = Value.str ("abc") from by decide] at hs
      injection hs with h
      subst h
      exact ⟨by decide, by decide⟩)⟩
